import Mathlib

/-!
Shallow embedding of src/src/network.rs of substrate-debug-kit.

Rust machine integers are modelled as Nat with explicit reduction modulo
a power of two where the code performs a narrowing cast; Rust Option is
Lean Option; a Rust unwrap or expect on absent or invalid data is
modelled by the fatal constructor of RpcResult; the remote round trip is
modelled by passing the response of the storage read or RPC call as an
explicit argument; the process-wide ISSUANCE cell is modelled by
explicit state passing.
-/

/-- Value of u64 max_value, that is 2 ^ 64 - 1. -/
def U64_MAX : Nat := 2 ^ 64 - 1

/-- Modulus of the u64 type, used for the `as u64` narrowing cast. -/
def U64_MOD : Nat := 2 ^ 64

/-- Modulus of the u128 type. -/
def U128_MOD : Nat := 2 ^ 128

/-- Bytes of an ASCII string literal, as Nat code points. All string
literals appearing in network.rs are ASCII, so the UTF-8 bytes of the
Rust String coincide with the code points. -/
def strBytes (s : String) : List Nat :=
s.data.map Char.toNat

/-- Result of an operation that may end in a Rust panic: ok carries the
returned value, fatal models unwrap or expect firing on absent or
malformed data. -/
inductive RpcResult (α : Type) where
| ok : α → RpcResult α
| fatal : RpcResult α
deriving DecidableEq

/-- One step of the UTF-8 validation automaton: state 0 accepts and
expects a start byte; states 1 and 2 expect one and two generic
continuation bytes; states 3, 4, 6, 7 are the range-restricted states
entered after the start bytes E0, ED, F0 and F4. Returns none when the
byte is not allowed in the current state. -/
def utf8Next (st b : Nat) : Option Nat :=
match st with
| 0 =>
  if b < 0x80 then some 0
  else if b < 0xC2 then none
  else if b < 0xE0 then some 1
  else if b = 0xE0 then some 3
  else if b = 0xED then some 4
  else if b < 0xF0 then some 2
  else if b = 0xF0 then some 6
  else if b < 0xF4 then some 5
  else if b = 0xF4 then some 7
  else none
| 1 => if 0x80 ≤ b then if b ≤ 0xBF then some 0 else none else none
| 2 => if 0x80 ≤ b then if b ≤ 0xBF then some 1 else none else none
| 3 => if 0xA0 ≤ b then if b ≤ 0xBF then some 1 else none else none
| 4 => if 0x80 ≤ b then if b ≤ 0x9F then some 1 else none else none
| 5 => if 0x80 ≤ b then if b ≤ 0xBF then some 2 else none else none
| 6 => if 0x90 ≤ b then if b ≤ 0xBF then some 2 else none else none
| 7 => if 0x80 ≤ b then if b ≤ 0x8F then some 2 else none else none
| _ => none

/-- Runs the UTF-8 automaton over a byte list from a given state. -/
def utf8Fold (st : Nat) : List Nat → Bool
| [] => st = 0
| b :: rest =>
  match utf8Next st b with
  | some st2 => utf8Fold st2 rest
  | none => false

/-- Whether a byte sequence is valid UTF-8, the success condition of
Rust String from_utf8. -/
def utf8Valid (bytes : List Nat) : Bool :=
utf8Fold 0 bytes

/-- Models String from_utf8 followed by unwrap or expect: on valid
UTF-8 the resulting String has exactly the input bytes, otherwise the
Rust code panics. -/
def stringFromUtf8 (bytes : List Nat) : RpcResult (List Nat) :=
if utf8Valid bytes then .ok bytes else .fatal

/-- The two frame_support storage hashers used in network.rs; both are
hash-with-key (concat) strategies, appending the raw key after its
hash. -/
inductive StorageHasher where
| blake2_128Concat : StorageHasher
| twox64Concat : StorageHasher
deriving DecidableEq

/-- The module, item, hasher and lookup key of a map-style storage
query issued through storage map_key. -/
structure MapQuery where
module : List Nat
item : List Nat
hasher : StorageHasher
key : List Nat
deriving DecidableEq

/-- The module and item of a singleton storage query issued through
storage value_key. -/
structure ValueQuery where
module : List Nat
item : List Nat
deriving DecidableEq

/-- The process-wide ISSUANCE cell of network.rs, an AtomicRefCell
holding a Balance, modelled as explicit state. -/
structure IssuanceCell where
val : Nat
deriving DecidableEq

/-- Initial value of the ISSUANCE static at process start:
RefCell new 0. -/
def ISSUANCE : IssuanceCell := ⟨0⟩

/-- Balances TotalIssuance singleton query issued by
get_total_issuance. -/
def get_total_issuance_query : ValueQuery :=
⟨strBytes ("Balances"), strBytes ("TotalIssuance")⟩

/-- Rust get_total_issuance: reads the Balances TotalIssuance singleton
and substitutes 0 when the storage value is absent (unwrap_or 0). The
storage read response is passed explicitly. -/
def get_total_issuance (readResp : Option Nat) : Nat :=
readResp.getD 0

namespace issuance

/-- Rust issuance get: returns the cached value, leaving the cell
unchanged. -/
def get (s : IssuanceCell) : Nat × IssuanceCell :=
(s.val, s)

/-- Rust issuance set: overwrites the cell with the freshly queried
total issuance; the storage read response is passed explicitly. -/
def set (s : IssuanceCell) (readResp : Option Nat) : IssuanceCell :=
⟨get_total_issuance readResp⟩

end issuance

/-- CurrencyToVoteHandler factor: issuance divided by u64 max_value
cast to u128, then max with 1. The issuance cache value is passed
explicitly. -/
def factor (issuance : Nat) : Nat :=
Nat.max (issuance / U64_MAX) 1

/-- Convert from u128 to u64 for CurrencyToVoteHandler:
(x / factor) as u64, the cast reducing modulo 2 ^ 64. -/
def convert_u128_to_u64 (issuance x : Nat) : Nat :=
(x / factor issuance) % U64_MOD

/-- Convert from u128 to u128 for CurrencyToVoteHandler:
x * factor, u128 multiplication reducing modulo 2 ^ 128 on overflow. -/
def convert_u128_to_u128 (issuance x : Nat) : Nat :=
(x * factor issuance) % U128_MOD

/-- The pallet_identity Data enumeration: Raw carries plain text bytes,
the remaining variants carry or denote non-textual data. Hash payloads
are kept as raw byte lists. -/
inductive Data where
| noData : Data
| raw : List Nat → Data
| blakeTwo256 : List Nat → Data
| sha256 : List Nat → Data
| keccak256 : List Nat → Data
| shaThree256 : List Nat → Data
deriving DecidableEq

/-- The display field of a pallet_identity IdentityInfo; the other
fields of the external record are never read by network.rs and are
omitted. -/
structure IdentityInfo where
display : Data
deriving DecidableEq

/-- A pallet_identity Registration; only the info field is read by
network.rs, so deposit and judgements of the external record are
omitted. -/
structure Registration where
info : IdentityInfo
deriving DecidableEq

/-- Identity IdentityOf map query issued by get_identity for a given
account. -/
def get_identity_query (who : List Nat) : MapQuery :=
⟨strBytes ("Identity"), strBytes ("IdentityOf"), .twox64Concat, who⟩

/-- Rust get_identity: on an absent record returns the sentinel
NO_IDENT; on a present record matches the display field, returning the
raw bytes decoded as UTF-8 for Data Raw (panicking when not UTF-8) and
the sentinel OPAQUE_IDENTITY for every other variant. The storage read
response is passed explicitly. -/
def get_identity (readResp : Option Registration) : RpcResult (List Nat) :=
match readResp with
| none => .ok (strBytes ("NO_IDENT"))
| some identity =>
  match identity.info.display with
  | .raw bytes => stringFromUtf8 bytes
  | _ => .ok (strBytes ("OPAQUE_IDENTITY"))

/-- Nicks NameOf map query issued by get_nick for a given account. -/
def get_nick_query (who : List Nat) : MapQuery :=
⟨strBytes ("Nicks"), strBytes ("NameOf"), .twox64Concat, who⟩

/-- Rust get_nick: reads a pair of name bytes and deposit; when present
returns the name bytes decoded as UTF-8 (unwrap panicking when not
UTF-8), when absent returns the sentinel bracketed NO_NICK. The storage
read response is passed explicitly. -/
def get_nick (readResp : Option (List Nat × Nat)) : RpcResult (List Nat) :=
match readResp with
| some nick => stringFromUtf8 nick.1
| none => .ok (strBytes ("[NO_NICK]"))

/-- The pallet_balances AccountData record: free, reserved and the two
frozen balances. -/
structure AccountData where
free : Nat
reserved : Nat
miscFrozen : Nat
feeFrozen : Nat
deriving DecidableEq

/-- The frame_system AccountInfo record: nonce, reference count and the
balance data. -/
structure AccountInfo where
nonce : Nat
refcount : Nat
data : AccountData
deriving DecidableEq

/-- System Account map query issued by get_account_data_at for a given
account. -/
def get_account_data_query (account : List Nat) : MapQuery :=
⟨strBytes ("System"), strBytes ("Account"), .blake2_128Concat, account⟩

/-- Rust get_account_data_at: reads System Account and unwraps the
Option, so absence panics and a present decoded AccountInfo is returned
unchanged. The storage read response is passed explicitly. -/
def get_account_data_at (readResp : Option AccountInfo) : RpcResult AccountInfo :=
match readResp with
| some info => .ok info
| none => .fatal

/-- Rust got_storage_size: one state_getStorageSize round trip; unwrap
applies to the transport Result only, so a transport error panics while
the Option payload, absent or present, is returned to the caller
unchanged. The transport response is passed explicitly. -/
def got_storage_size (resp : Except Unit (Option Nat)) : RpcResult (Option Nat) :=
match resp with
| .error _ => .fatal
| .ok v => .ok v

/-- System Events singleton query issued by get_events_at. -/
def get_events_at_query : ValueQuery :=
⟨strBytes ("System"), strBytes ("Events")⟩

/-! Claim theorems. -/

/-- Spec definition for claim C1 as stated: factor equals the maximum
of 1 and the issuance divided by 2 ^ 64. -/
def factor_spec_claimed (issuance : Nat) : Nat :=
Nat.max 1 (issuance / 2 ^ 64)

/-- Spec definition for claim C1 as amended: factor equals the maximum
of 1 and the issuance divided by u64 max_value, that is 2 ^ 64 - 1. -/
def factor_spec_amended (issuance : Nat) : Nat :=
Nat.max 1 (issuance / (2 ^ 64 - 1))

/-- Claim C1, counterexample: at issuance 2 ^ 65 - 2 the code computes
factor 2 while the spec formula with divisor 2 ^ 64 gives 1, because
the code divides by u64 max_value, which is 2 ^ 64 - 1, not 2 ^ 64. -/
theorem factor_claimed_counterexample :
    factor (2 ^ 65 - 2) = 2 ∧ factor_spec_claimed (2 ^ 65 - 2) = 1 ∧
    factor (2 ^ 65 - 2) ≠ factor_spec_claimed (2 ^ 65 - 2) := by
  refine ⟨by decide, by decide, by decide⟩

/-- Claim C1, amended: for every issuance cache value, factor equals
the maximum of 1 and the issuance divided, with exact integer division,
by u64 max_value, that is 2 ^ 64 - 1. -/
theorem factor_eq_spec_amended :
    ∀ issuance : Nat, factor issuance = factor_spec_amended issuance := by
  intro i
  unfold factor factor_spec_amended U64_MAX
  exact Nat.max_comm _ _

/-- Claim C2, counterexample: with the issuance cache at 0 the factor
is 1, and converting x = 2 ^ 64 forward returns 0, not the integer
quotient x / factor = 2 ^ 64, which exceeds u64 max_value. -/
theorem convert_forward_counterexample :
    convert_u128_to_u64 0 (2 ^ 64) ≠ 2 ^ 64 / factor 0 ∧
    ¬ (2 ^ 64 / factor 0 ≤ U64_MAX) := by
  refine ⟨by decide, by decide⟩

/-- Claim C2, amended: for every balance x and issuance cache value,
the forward conversion result is at most u64 max_value, and it equals
the integer quotient x / factor whenever that quotient is at most
u64 max_value; larger quotients are truncated by the narrowing cast. -/
theorem convert_forward_bounded :
    ∀ issuance x : Nat,
      convert_u128_to_u64 issuance x ≤ U64_MAX ∧
      (x / factor issuance ≤ U64_MAX →
        convert_u128_to_u64 issuance x = x / factor issuance) := by
  intro i x
  have hmod : 0 < U64_MOD := by decide
  have hmax : U64_MAX + 1 = U64_MOD := by decide
  constructor
  · have h := Nat.mod_lt (x / factor i) hmod
    unfold convert_u128_to_u64
    omega
  · intro hle
    unfold convert_u128_to_u64
    exact Nat.mod_eq_of_lt (by omega)

/-- Claim C2 witness: with issuance 0 and x = 500 the quotient fits,
so the conversion is exact and bounded. -/
theorem convert_forward_bounded_witness :
    convert_u128_to_u64 0 500 ≤ U64_MAX ∧
    convert_u128_to_u64 0 500 = 500 / factor 0 :=
  ⟨(convert_forward_bounded 0 500).1,
   (convert_forward_bounded 0 500).2 (by decide)⟩

/-- Claim C3: the account data query targets System Account with the
Blake2 128 concat (hash-with-key) strategy; an absent storage response
makes get_account_data_at fatal (unwrap panics) rather than yielding a
default, and a present decoded AccountInfo is returned unchanged. -/
theorem get_account_data_at_absence_fatal :
    get_account_data_at none = .fatal ∧
    (∀ info : AccountInfo, get_account_data_at (some info) = .ok info) ∧
    (∀ account : List Nat,
      get_account_data_query account =
        ⟨strBytes ("System"), strBytes ("Account"),
         .blake2_128Concat, account⟩) :=
  ⟨rfl, fun _ => rfl, fun _ => rfl⟩

/-- Claim C4: get_identity returns the sentinel NO_IDENT on an absent
record, the sentinel OPAQUE_IDENTITY when the display field is not the
plain text Raw variant, and the raw UTF-8 display name bytes when the
display field is Raw with valid UTF-8 content. -/
theorem get_identity_sentinels :
    get_identity none = .ok (strBytes ("NO_IDENT")) ∧
    (∀ reg : Registration,
      (∀ b : List Nat, reg.info.display ≠ .raw b) →
        get_identity (some reg) = .ok (strBytes ("OPAQUE_IDENTITY"))) ∧
    (∀ (reg : Registration) (b : List Nat),
      reg.info.display = .raw b → utf8Valid b = true →
        get_identity (some reg) = .ok b) := by
  refine ⟨rfl, ?_, ?_⟩
  · intro reg h
    obtain ⟨⟨d⟩⟩ := reg
    cases d with
    | raw b => exact absurd rfl (h b)
    | noData => rfl
    | blakeTwo256 p => rfl
    | sha256 p => rfl
    | keccak256 p => rfl
    | shaThree256 p => rfl
  · intro reg b hd hv
    obtain ⟨⟨d⟩⟩ := reg
    cases hd
    simp [get_identity, stringFromUtf8, hv]

/-- Claim C4 witness: a non-textual display yields the sentinel
OPAQUE_IDENTITY and a textual display yields its raw bytes. -/
theorem get_identity_sentinels_witness :
    get_identity (some ⟨⟨.sha256 []⟩⟩) = .ok (strBytes ("OPAQUE_IDENTITY")) ∧
    get_identity (some ⟨⟨.raw (strBytes ("bob"))⟩⟩) = .ok (strBytes ("bob")) :=
  ⟨get_identity_sentinels.2.1 ⟨⟨.sha256 []⟩⟩ (fun _ h => Data.noConfusion h),
   get_identity_sentinels.2.2 ⟨⟨.raw (strBytes ("bob"))⟩⟩
     (strBytes ("bob")) rfl (by decide)⟩

/-- Claim C5, counterexample: an absent remote response, that is the
transport succeeding with payload none, is returned to the caller as
none, a recoverable absence value, not a fatal outcome. -/
theorem got_storage_size_counterexample :
    got_storage_size (Except.ok none) = .ok none ∧
    got_storage_size (Except.ok none) ≠ .fatal :=
  ⟨rfl, by decide⟩

/-- Claim C5, amended: got_storage_size treats a transport failure as
fatal (unwrap panics on the error), while the payload of a successful
round trip, absent or present, is returned to the caller unchanged. -/
theorem got_storage_size_transport_fatal :
    (∀ e : Unit, got_storage_size (.error e) = .fatal) ∧
    (∀ v : Option Nat, got_storage_size (.ok v) = .ok v) :=
  ⟨fun _ => rfl, fun _ => rfl⟩

/-- Claim C6: for every issuance cache value, including the default 0,
factor is at least 1, so the forward conversion never divides by 0. -/
theorem factor_ge_one : ∀ issuance : Nat, 1 ≤ factor issuance :=
  fun i => Nat.le_max_right (i / U64_MAX) 1

/-- Claim C7: the ISSUANCE cell starts at 0; issuance get returns the
cached value and leaves the cell unchanged; issuance set overwrites the
cell with the freshly queried total issuance, where the query targets
the Balances TotalIssuance singleton and substitutes 0 on absence. -/
theorem issuance_cache_lifecycle :
    ISSUANCE.val = 0 ∧
    (∀ s : IssuanceCell, (issuance.get s).1 = s.val ∧ (issuance.get s).2 = s) ∧
    (∀ (s : IssuanceCell) (r : Option Nat),
      issuance.set s r = ⟨get_total_issuance r⟩) ∧
    get_total_issuance none = 0 ∧
    (∀ v : Nat, get_total_issuance (some v) = v) ∧
    get_total_issuance_query =
      ⟨strBytes ("Balances"), strBytes ("TotalIssuance")⟩ :=
  ⟨rfl, fun _ => ⟨rfl, rfl⟩, fun _ _ => rfl, rfl, fun _ => rfl, rfl⟩

/-- Claim C8: with the issuance cache at its initial value 0, factor is
1 and the forward conversion of 500 returns exactly 500. -/
theorem factor_zero_convert_500 :
    ISSUANCE.val = 0 ∧ factor 0 = 1 ∧ convert_u128_to_u64 0 500 = 500 := by
  refine ⟨rfl, by decide, by decide⟩

/-- Claim C9: get_nick returns the bracketed NO_NICK sentinel when the
Nicks NameOf read is absent, and otherwise returns the UTF-8 decoded
name portion, the first component of the stored pair. -/
theorem get_nick_sentinel :
    get_nick none = .ok (strBytes ("[NO_NICK]")) ∧
    (∀ (name : List Nat) (deposit : Nat), utf8Valid name = true →
      get_nick (some (name, deposit)) = .ok name) := by
  refine ⟨rfl, ?_⟩
  intro name deposit hv
  simp [get_nick, stringFromUtf8, hv]

/-- Claim C9 witness: a stored pair with a valid UTF-8 name yields
exactly that name. -/
theorem get_nick_sentinel_witness :
    get_nick (some (strBytes ("alice"), 100)) = .ok (strBytes ("alice")) :=
  get_nick_sentinel.2 (strBytes ("alice")) 100 (by decide)

/-- Claim C10: the forward conversion returns the integer quotient
x / factor reduced modulo 2 ^ 64, that is it is congruent to the
quotient modulo 2 ^ 64 and below 2 ^ 64; in particular with the cache
at 0 the conversion of 2 ^ 64 returns 0, not the quotient 2 ^ 64. -/
theorem convert_truncating_cast :
    (∀ issuance x : Nat,
      Nat.ModEq U64_MOD (x / factor issuance)
        (convert_u128_to_u64 issuance x) ∧
      convert_u128_to_u64 issuance x < U64_MOD) ∧
    convert_u128_to_u64 0 (2 ^ 64) = 0 := by
  refine ⟨fun i x => ⟨?_, ?_⟩, by decide⟩
  · unfold convert_u128_to_u64
    exact (Nat.mod_modEq _ _).symm
  · unfold convert_u128_to_u64
    exact Nat.mod_lt _ (by decide)
